import Mathlib

/-!
Verification development for the fax ingestion / categorization / review
backend (`backend/app/services/fax_service.py`, `folder_watcher.py`, with the
record shapes of `backend/app/models/fax.py` and `backend/app/schemas/fax.py`).

Shallow embedding conventions:
* `fax_service.py` imports `FaxCategory` from `app.schemas.fax`, and that enum
  has exactly four members — `discharge_summary`, `inpatient_document`,
  `census`, `junk_fax` (`schemas/fax.py` 17-22; `models/fax.py` 18-23 is
  identical).  The service nevertheless references members named `unknown`,
  `urgent`, `prescriptions`, ..., which do not exist; in Python each such
  attribute access raises `AttributeError`.  The embedding uses the real
  four-member enum and models the raising control flow explicitly:
  fallible service functions return `Except` values whose error side carries
  the raised exception.
* The generation collaborator (`generate_text`) is an explicit function
  parameter `gen : String → String`; "no external call is made" is expressed
  as independence of the result from `gen`.
* Confidence values and rates are rationals (`ℚ`); the Python floats that
  occur in the claims are exact.
* Timestamp columns (`received_at`, `reviewed_at`, ...) are omitted from the
  record: no claim under verification mentions time, and the service only
  ever writes "now" into them.
* `db.commit()` in `review_fax` runs before the response construction, so an
  exception raised while building the response leaves the committed update
  in place; an exception raised *by* the commit itself (the NOT NULL
  violation on `fax_feedback.ai_category`) is rolled back, leaving the store
  unchanged.  The embedding mirrors both orders of effects.
-/

/-- Status of a fax in the processing pipeline (`FaxStatus` in
`schemas/fax.py` and `models/fax.py`; the database stores the `.value`
string, and the service only ever writes these enum values). -/
inductive FaxStatus where
  | pending
  | categorized
  | approved
  | overridden
  | processed
deriving DecidableEq, Repr, BEq

/-- The fax category enum the service actually imports
(`schemas/fax.py` 17-22, identical to `models/fax.py` 18-23): exactly four
members.  The members `fax_service.py` refers to (`unknown`, `urgent`,
`prescriptions`, ...) do not exist on this enum. -/
inductive FaxCategory where
  | discharge_summary
  | inpatient_document
  | census
  | junk_fax
deriving DecidableEq, Repr, BEq

/-- The `.value` string of a category member (Python `str`-enum value). -/
def FaxCategory.value : FaxCategory → String
  | .discharge_summary => "discharge_summary"
  | .inpatient_document => "inpatient_document"
  | .census => "census"
  | .junk_fax => "junk_fax"

/-- All category members in declaration order. -/
def FaxCategory.members : List FaxCategory :=
  [.discharge_summary, .inpatient_document, .census, .junk_fax]

/-- Python `FaxCategory(s)`: value-lookup in the real enum; `none` models the
`ValueError` raised when `s` is not one of the four member values
(including `None`). -/
def FaxCategory.fromValue? (s : String) : Option FaxCategory :=
  FaxCategory.members.find? (fun c => c.value = s)

/-- The exceptions the service-layer functions raise: the `AttributeError`
from accessing a nonexistent `FaxCategory` member (carrying the member
name), and the pydantic `ValidationError` from constructing a response
model with a required field missing (carrying the field name). -/
inductive PyException where
  | attributeError (member : String)
  | validationError (field : String)
deriving DecidableEq, Repr

/-- ASCII whitespace, as stripped by Python `str.strip()` (the texts in the
claims are ASCII; the exotic Unicode whitespace Python also strips never
occurs in them). -/
def isWs (c : Char) : Bool :=
  c = ' ' || c = '\t' || c = '\n' || c = '\r'

/-- Python `s.strip()` on the character list. -/
def strTrim (s : String) : String :=
  ⟨((s.data.dropWhile isWs).reverse.dropWhile isWs).reverse⟩

/-- ASCII lowercasing of one character (Python `str.lower` on the ASCII
range, which covers every text in the claims). -/
def lowerChar (c : Char) : Char :=
  if 65 ≤ c.toNat && c.toNat ≤ 90 then Char.ofNat (c.toNat + 32) else c

/-- Python `s.lower()`. -/
def strToLower (s : String) : String :=
  ⟨s.data.map lowerChar⟩

/-- Occurrence of `pat` as a contiguous sublist of `l`. -/
def containsSubList (pat : List Char) : List Char → Bool
  | [] => pat.isEmpty
  | c :: rest => pat.isPrefixOf (c :: rest) || containsSubList pat rest

/-- Python substring test `pat in s`. -/
def containsSub (s pat : String) : Bool :=
  containsSubList pat.data s.data

/-- The categorization prompt of `categorize_fax` (`fax_service.py` 81-101),
built from the 4000-character snippet.  The prompt is an ordinary string and
builds fine; only the enum member accesses after it raise. -/
def categorize_prompt (snippet : String) : String :=
  "You are a medical office fax categorization assistant. Analyze the following fax document and categorize it into ONE of these categories:\n\n- medical_records: Patient medical records, charts, history\n- lab_results: Laboratory test results, blood work, diagnostic tests\n- prescriptions: Prescription requests, medication orders, refill requests\n- referrals: Patient referrals to specialists or other providers\n- insurance: Insurance forms, authorizations, coverage information\n- billing: Bills, invoices, payment information\n- patient_correspondence: Letters to/from patients, appointment confirmations\n- administrative: Office memos, general administrative documents\n- urgent: Time-sensitive documents requiring immediate attention\n- unknown: Cannot determine category\n\nAlso assess your confidence level (0.0 to 1.0) in this categorization.\n\nReturn STRICT JSON with exactly these keys:\n\x7b\"category\": \"one_of_the_categories\", \"confidence\": 0.85, \"reason\": \"Brief explanation\"\x7d\n\nFax Document:\n" ++ snippet ++ "\n"

/-- Embedding of `categorize_fax` (`fax_service.py` 71-142).  Both branches
evaluate `FaxCategory.unknown`, which the imported four-member enum does not
define, so every call raises `AttributeError`: line 77 for empty/short text
(before any external call), line 106 for long text (after the generation
collaborator has been invoked at line 103 but before any parsing — lines
110-141 are unreachable). -/
def categorize_fax (gen : String → String) (text : String) :
    Except PyException (FaxCategory × ℚ × String) :=
  if text.data.isEmpty || (strTrim text).length < 50 then
    Except.error (PyException.attributeError "unknown")
  else
    let snippet : String := ⟨text.data.take 4000⟩
    let _raw := strTrim (gen (categorize_prompt snippet))
    Except.error (PyException.attributeError "unknown")

/-- The summarization prompt of `summarize_fax` (`fax_service.py` 152-160). -/
def summarize_prompt (snippet : String) : String :=
  "Summarize this fax document in 2-3 sentences. Focus on:\n- Who sent it / who it's about\n- Main purpose or request\n- Any urgent items or deadlines\n\nFax content:\n" ++ snippet ++ "\n\nSummary:"

/-- Embedding of `summarize_fax` (`fax_service.py` 145-162); it references no
enum member and works. -/
def summarize_fax (gen : String → String) (text : String) : String :=
  if text.data.isEmpty || (strTrim text).length < 50 then
    "Insufficient text to summarize."
  else
    gen (summarize_prompt ⟨text.data.take 3000⟩)

/-- Embedding of `detect_urgency` (`fax_service.py` 165-196).  Its first
statement (line 171) evaluates `FaxCategory.urgent`, which the imported
enum does not define, so every call raises `AttributeError` before any
scoring; the keyword scan and the category floors (lines 174-196) are
unreachable. -/
def detect_urgency (_text : String) (_category : FaxCategory) :
    Except PyException (Bool × Nat) :=
  Except.error (PyException.attributeError "urgent")

/-- One row of the `faxes` table (`models/fax.py`, class `Fax`).  Category
and status columns are the nullable strings the database stores; timestamp
columns are omitted (see the header comment).  The service only ever writes
`FaxStatus` enum values into `status`, so that column is modelled by the
enum directly. -/
structure FaxRow where
  id : Nat
  filename : String
  original_path : String
  file_hash : String
  status : FaxStatus
  ai_category : Option String
  ai_confidence : Option ℚ
  ai_reason : Option String
  final_category : Option String
  was_overridden : Bool
  override_reason : Option String
  reviewed_by : Option String
  raw_text : Option String
  text_length : Nat
  summary : Option String
  page_count : Nat
  is_urgent : Bool
  priority_score : Nat
deriving DecidableEq, Repr

/-- One row of the `fax_feedback` table (`models/fax.py`, class
`FaxFeedback`).  `ai_category` is declared `nullable=False`
(`models/fax.py` 80), so the column is a plain `String`; inserting a row
with a NULL value there makes `db.commit()` raise `IntegrityError`. -/
structure FeedbackRow where
  fax_id : Nat
  ai_category : String
  correct_category : String
  feedback_text : Option String
  submitted_by : Option String
deriving DecidableEq, Repr

/-- The persisted record set the service operates on.  Rows carry unique
primary-key ids in the real store; the embedding applies row updates by id,
which coincides with the ORM's single-row mutation under that invariant. -/
structure DBState where
  faxes : List FaxRow
  feedbacks : List FeedbackRow
deriving DecidableEq, Repr

/-- `FaxReviewRequest` (`schemas/fax.py` 76-81); its `category` field ranges
over the real four-member enum, so no other category can reach
`review_fax`. -/
structure FaxReviewRequest where
  action : String
  category : Option FaxCategory
  reason : Option String
  reviewer : Option String

/-- The exceptions `review_fax` can raise: the explicit
`ValueError("Category is required for override action")`; the `ValueError`
from `FaxCategory(fax.final_category)` in the response when that column
does not hold one of the four member values (in particular when it is
NULL); and the `IntegrityError` from committing a feedback row whose
`ai_category` is NULL (`models/fax.py` 80, `nullable=False`). -/
inductive ReviewError where
  | missingCategory
  | invalidFinalCategory
  | feedbackNullAiCategory
deriving DecidableEq, Repr

/-- `FaxReviewResponse` (`schemas/fax.py` 84-90): `final_category` is a
required (non-optional) `FaxCategory`. -/
structure FaxReviewResponse where
  id : Nat
  status : FaxStatus
  final_category : FaxCategory
  was_overridden : Bool
  message : String
deriving DecidableEq, Repr

/-- Update the row with the given id (ORM mutation of the fetched row). -/
def DBState.updateFax (st : DBState) (fax_id : Nat) (upd : FaxRow → FaxRow) :
    DBState :=
  { st with faxes := st.faxes.map (fun f => if f.id = fax_id then upd f else f) }

/-- The row mutation of the approve branch (`fax_service.py` 374-379,
401-403). -/
def approveUpd (req : FaxReviewRequest) (f : FaxRow) : FaxRow :=
  { f with status := FaxStatus.approved, final_category := f.ai_category,
           was_overridden := false, reviewed_by := req.reviewer }

/-- The row mutation of the override branch (`fax_service.py` 394-399,
401-403). -/
def overrideUpd (req : FaxReviewRequest) (cat : FaxCategory) (f : FaxRow) :
    FaxRow :=
  { f with status := FaxStatus.overridden,
           final_category := some cat.value, was_overridden := true,
           override_reason := req.reason, reviewed_by := req.reviewer }

/-- The feedback row created by the override branch (`fax_service.py`
384-392), in the only case in which the commit accepts it: the fax row's
`ai_category` holds the string `aival`. -/
def overrideFeedback (req : FaxReviewRequest) (cat : FaxCategory)
    (fax_id : Nat) (aival : String) : FeedbackRow :=
  { fax_id := fax_id, ai_category := aival,
    correct_category := cat.value, feedback_text := req.reason,
    submitted_by := req.reviewer }

/-- Embedding of `review_fax` (`fax_service.py` 364-420).  Returns the
call's outcome together with the resulting store.  Order of effects, as in
the source: the missing-category `ValueError` is raised before any mutation
(rollback leaves the store unchanged); in the override branch on a record
with NULL `ai_category` the feedback insert violates the NOT NULL column,
so `db.commit()` raises `IntegrityError` and the rollback undoes the
pending insert and update; otherwise the commit succeeds first, and the
`FaxCategory(fax.final_category)` conversion in the response runs *after*
it, so a conversion failure (a value outside the four members, or NULL)
still leaves the committed update in place. -/
def review_fax (st : DBState) (fax_id : Nat) (req : FaxReviewRequest) :
    Except ReviewError (Option FaxReviewResponse) × DBState :=
  match st.faxes.find? (fun f => f.id = fax_id) with
  | none => (Except.ok none, st)
  | some fax =>
    if req.action = "approve" then
      let st' := st.updateFax fax_id (approveUpd req)
      match (approveUpd req fax).final_category with
      | none => (Except.error ReviewError.invalidFinalCategory, st')
      | some v =>
        match FaxCategory.fromValue? v with
        | none => (Except.error ReviewError.invalidFinalCategory, st')
        | some c =>
          (Except.ok (some { id := fax.id, status := FaxStatus.approved,
                             final_category := c, was_overridden := false,
                             message := "AI categorization approved." }), st')
    else
      match req.category with
      | none => (Except.error ReviewError.missingCategory, st)
      | some cat =>
        match fax.ai_category with
        | none => (Except.error ReviewError.feedbackNullAiCategory, st)
        | some aival =>
          let st' := { (st.updateFax fax_id (overrideUpd req cat)) with
                       feedbacks := st.feedbacks ++
                         [overrideFeedback req cat fax_id aival] }
          match FaxCategory.fromValue? cat.value with
          | none => (Except.error ReviewError.invalidFinalCategory, st')
          | some c =>
            (Except.ok (some { id := fax.id, status := FaxStatus.overridden,
                               final_category := c, was_overridden := true,
                               message := "Category overridden to " ++ cat.value ++ "." }), st')

/-- Embedding of `mark_fax_processed` (`fax_service.py` 453-466). -/
def mark_fax_processed (st : DBState) (fax_id : Nat) : Bool × DBState :=
  match st.faxes.find? (fun f => f.id = fax_id) with
  | none => (false, st)
  | some _ =>
    (true, st.updateFax fax_id (fun f => { f with status := FaxStatus.processed }))

/-- Embedding of `delete_fax` (`fax_service.py` 670-684): removes the row
and its feedback rows. -/
def delete_fax (st : DBState) (fax_id : Nat) : Bool × DBState :=
  match st.faxes.find? (fun f => f.id = fax_id) with
  | none => (false, st)
  | some _ =>
    (true, { faxes := st.faxes.filter (fun f => f.id ≠ fax_id),
             feedbacks := st.feedbacks.filter (fun fb => fb.fax_id ≠ fax_id) })

/-- One loop iteration of `batch_review_faxes` (`fax_service.py` 434-448):
build the request, call `review_fax`; an exception or a not-found result
counts as failed, a response as processed. -/
def batchStep (action : String) (category : Option FaxCategory)
    (reason : Option String) (reviewer : Option String)
    (acc : (Nat × Nat) × DBState) (fax_id : Nat) : (Nat × Nat) × DBState :=
  let req : FaxReviewRequest :=
    { action := action, category := category, reason := reason,
      reviewer := reviewer }
  match review_fax acc.2 fax_id req with
  | (Except.error _, st') => ((acc.1.1, acc.1.2 + 1), st')
  | (Except.ok none, st') => ((acc.1.1, acc.1.2 + 1), st')
  | (Except.ok (some _), st') => ((acc.1.1 + 1, acc.1.2), st')

/-- Embedding of `batch_review_faxes` (`fax_service.py` 423-450).  Every
exception is caught inside the loop, so the function itself is total (it
cannot raise past the batch boundary). -/
def batch_review_faxes (st : DBState) (fax_ids : List Nat) (action : String)
    (category : Option FaxCategory) (reason : Option String)
    (reviewer : Option String) : (Nat × Nat) × DBState :=
  fax_ids.foldl (batchStep action category reason reviewer) ((0, 0), st)

/-- The next autoincrement primary key. -/
def DBState.nextId (st : DBState) : Nat :=
  (st.faxes.map (fun f => f.id)).foldl Nat.max 0 + 1

/-- Embedding of `process_new_fax` (`fax_service.py` 199-271).  The external
collaborators are parameters: `md5` the content hash (`get_file_hash`),
`extract` the text extraction returning `(text, page_count)`
(`extract_text_from_file`), `gen` the generation collaborator.  The input
file is its byte content plus names.  The duplicate check (lines 206-209)
works; on the non-duplicate path `categorize_fax` raises `AttributeError`
(line 215), the `except` clause rolls back and re-raises (lines 267-269),
so the store is unchanged and no record is ever persisted.  The
continuation after categorization is embedded for completeness; it is
unreachable because `categorize_fax` errors on every input. -/
def process_new_fax (md5 : String → String) (extract : String → String × Nat)
    (gen : String → String) (st : DBState) (content filename path : String) :
    Except PyException (Option FaxRow) × DBState :=
  let file_hash := md5 content
  match st.faxes.find? (fun f => f.file_hash = file_hash) with
  | some _ => (Except.ok none, st)
  | none =>
    let ext := extract content
    let text := ext.1
    let page_count := ext.2
    match categorize_fax gen text with
    | Except.error e => (Except.error e, st)
    | Except.ok cat =>
      match detect_urgency text cat.1 with
      | Except.error e => (Except.error e, st)
      | Except.ok urg =>
        let summary := summarize_fax gen text
        let fax : FaxRow :=
          { id := st.nextId, filename := filename, original_path := path,
            file_hash := file_hash, status := FaxStatus.categorized,
            ai_category := some cat.1.value, ai_confidence := some cat.2.1,
            ai_reason := some cat.2.2, final_category := none,
            was_overridden := false, override_reason := none,
            reviewed_by := none, raw_text := some text,
            text_length := text.length, summary := some summary,
            page_count := page_count, is_urgent := urg.1,
            priority_score := urg.2 }
        (Except.ok (some fax), { st with faxes := st.faxes ++ [fax] })

/-- The review-accuracy slice of the statistics the aggregate computes
before it fails (`fax_service.py` 473-501; the category breakdown and the
clock-relative windows are not referenced by any claim under
verification). -/
structure FaxStatsCore where
  total_faxes : Nat
  pending : Nat
  categorized : Nat
  approved : Nat
  overridden : Nat
  processed : Nat
  total_reviewed : Nat
  accuracy_rate : ℚ
deriving DecidableEq, Repr

/-- The counting and accuracy arithmetic `get_fax_stats` performs at
`fax_service.py` 473-501, before the response construction. -/
def stats_core (st : DBState) : FaxStatsCore :=
  let count := fun (s : FaxStatus) => st.faxes.countP (fun f => f.status == s)
  let approved := count FaxStatus.approved
  let overridden := count FaxStatus.overridden
  let total_reviewed := approved + overridden
  { total_faxes := st.faxes.length,
    pending := count FaxStatus.pending,
    categorized := count FaxStatus.categorized,
    approved := approved,
    overridden := overridden,
    processed := count FaxStatus.processed,
    total_reviewed := total_reviewed,
    accuracy_rate :=
      if total_reviewed > 0 then (approved : ℚ) / (total_reviewed : ℚ) * 100
      else 0 }

/-- Embedding of `get_fax_stats` (`fax_service.py` 469-531).  The counting
and arithmetic (`stats_core`) complete, but the `FaxStats(...)` response
construction at lines 516-528 omits the required `auto_approved` field
(`schemas/fax.py` 142, no default), so pydantic raises a `ValidationError`
on every call and no aggregate is ever returned. -/
def get_fax_stats (st : DBState) : Except PyException FaxStatsCore :=
  let _core := stats_core st
  Except.error (PyException.validationError "auto_approved")

/-- One tick's observation of a candidate file by `_is_file_ready`
(`folder_watcher.py` 167-189): the two size samples taken across the fixed
0.5 s delay (`none` models an exception from `stat()`), and whether opening
the file for reading succeeds. -/
structure FileObs where
  size1 : Option Nat
  size2 : Option Nat
  can_read : Bool
deriving DecidableEq, Repr

/-- What the intake processor does for a file if the watcher hands it over
(`_process_file`, `folder_watcher.py` 191-229): a created record, the
duplicate outcome, or a raised error with its message. -/
inductive ProcOutcome where
  | success
  | duplicate
  | failure (msg : String)
deriving DecidableEq, Repr

/-- A directory entry as one tick of `_scan_folder` sees it: its absolute
path key, whether it is a regular file, its extension (`Path.suffix`), this
tick's stability observation, and this tick's intake outcome. -/
structure FolderEntry where
  path : String
  is_file : Bool
  ext : String
  obs : FileObs
  outcome : ProcOutcome
deriving DecidableEq, Repr

/-- `SUPPORTED_EXTENSIONS` (`folder_watcher.py` 36). -/
def supported_exts : List String := [".pdf", ".tif", ".tiff"]

/-- The watcher's mutable state as far as one tick touches it
(`WatcherState`, `folder_watcher.py` 19-28). -/
structure WatcherSt where
  processed_files : List String
  errors : List String
  files_in_queue : Nat
deriving DecidableEq, Repr

/-- Embedding of `_is_file_ready` (`folder_watcher.py` 167-189): ready iff
both size samples were obtained, they are equal, and the file opened for
reading; any `stat` exception yields not-ready. -/
def is_file_ready (obs : FileObs) : Bool :=
  match obs.size1, obs.size2 with
  | some s1, some s2 => if s1 != s2 then false else obs.can_read
  | _, _ => false

/-- The candidate filter of `_scan_folder` (`folder_watcher.py` 136-153):
regular file, supported extension, not in the processed-file cache, and
stable per `_is_file_ready`. -/
def scan_candidate (st : WatcherSt) (e : FolderEntry) : Bool :=
  e.is_file && supported_exts.contains (strToLower e.ext) &&
    !(st.processed_files.contains e.path) && is_file_ready e.obs

/-- Python `errors[-10:]`. -/
def lastTen (l : List String) : List String :=
  l.drop (l.length - 10)

/-- Handling of one ready file by the tick (`_process_file`,
`folder_watcher.py` 191-229, and the error handling of `_scan_folder`
158-165): success or duplicate adds the path to the processed-file cache; a
failure appends the error to the bounded log and leaves the cache alone. -/
def scanStep (acc : WatcherSt) (e : FolderEntry) : WatcherSt :=
  match e.outcome with
  | ProcOutcome.success =>
    { acc with processed_files := acc.processed_files ++ [e.path] }
  | ProcOutcome.duplicate =>
    { acc with processed_files := acc.processed_files ++ [e.path] }
  | ProcOutcome.failure msg =>
    { acc with errors := lastTen (acc.errors ++ [msg]) }

/-- Embedding of one tick of `_scan_folder` (`folder_watcher.py` 126-165)
over the abstract directory listing: filter candidates, record the queue
length, then process the candidates one at a time. -/
def scan_folder (st : WatcherSt) (entries : List FolderEntry) : WatcherSt :=
  let new_files := entries.filter (scan_candidate st)
  let st1 : WatcherSt := { st with files_in_queue := new_files.length }
  new_files.foldl scanStep st1

/-- The paths a tick hands to the intake processor. -/
def processedThisTick (st : WatcherSt) (entries : List FolderEntry) :
    List String :=
  (entries.filter (scan_candidate st)).map (fun e => e.path)

/-- The identity-and-AI-category view of a row; review operations never
change it. -/
def pairFn (f : FaxRow) : Nat × Option String := (f.id, f.ai_category)

/-- Whether a record with the given id exists. -/
def presentFax (st : DBState) (i : Nat) : Bool :=
  st.faxes.any (fun f => f.id == i)

/-- Every persisted AI category is one of the four member values — exactly
the stores on which the real `FaxCategory(...)` response conversion
succeeds. -/
def validCats (st : DBState) : Prop :=
  ∀ f ∈ st.faxes, (f.ai_category.bind FaxCategory.fromValue?).isSome

/-- Pending-style row with no AI categorization (NULL `ai_category`). -/
def c10_row : FaxRow :=
  { id := 1, filename := "f.pdf", original_path := "/in/f.pdf",
    file_hash := "h1", status := FaxStatus.pending, ai_category := none,
    ai_confidence := none, ai_reason := none, final_category := none,
    was_overridden := false, override_reason := none, reviewed_by := none,
    raw_text := none, text_length := 0, summary := none, page_count := 1,
    is_urgent := false, priority_score := 0 }

/-- Categorized row awaiting review, with a real member value. -/
def c3_row : FaxRow :=
  { id := 1, filename := "g.pdf", original_path := "/in/g.pdf",
    file_hash := "h2", status := FaxStatus.categorized,
    ai_category := some "census", ai_confidence := none, ai_reason := none,
    final_category := none, was_overridden := false, override_reason := none,
    reviewed_by := none, raw_text := none, text_length := 100,
    summary := none, page_count := 1, is_urgent := false,
    priority_score := 0 }

/-- Store holding only `c3_row`. -/
def c3_st : DBState := { faxes := [c3_row], feedbacks := [] }

/-- Concrete override request (category from the real enum). -/
def c3_req : FaxReviewRequest :=
  { action := "override", category := some FaxCategory.junk_fax,
    reason := some "actually junk", reviewer := some "alice" }

/-- Categorized row whose `ai_category` is NULL. -/
def c3n_row : FaxRow := { c3_row with ai_category := none }

/-- Store holding only `c3n_row`. -/
def c3n_st : DBState := { faxes := [c3n_row], feedbacks := [] }

/-- Processed row with a real member value in its category columns. -/
def c2_row : FaxRow :=
  { id := 1, filename := "p.pdf", original_path := "/in/p.pdf",
    file_hash := "h3", status := FaxStatus.processed,
    ai_category := some "census", ai_confidence := none, ai_reason := none,
    final_category := some "census", was_overridden := false,
    override_reason := none, reviewed_by := none, raw_text := none,
    text_length := 200, summary := none, page_count := 1,
    is_urgent := false, priority_score := 0 }

/-- Store holding only `c2_row`. -/
def c2_st : DBState := { faxes := [c2_row], feedbacks := [] }

/-- Concrete approve request. -/
def c2_approve : FaxReviewRequest :=
  { action := "approve", category := none, reason := none, reviewer := none }

/-- Rows for the statistics instance: three approved, one overridden. -/
def c7_st : DBState :=
  { faxes :=
      [{ c3_row with id := 1, file_hash := "a1", status := FaxStatus.approved },
       { c3_row with id := 2, file_hash := "a2", status := FaxStatus.approved },
       { c3_row with id := 3, file_hash := "a3", status := FaxStatus.approved },
       { c3_row with id := 4, file_hash := "a4", status := FaxStatus.overridden }],
    feedbacks := [] }

/-- Two valid categorized rows for the batch instance. -/
def c6_st : DBState :=
  { faxes := [{ c3_row with id := 1, file_hash := "b1" },
              { c3_row with id := 2, file_hash := "b2" }],
    feedbacks := [] }

/-- The invalid-JSON generation response of the C1 scenario: no brace pair,
but `lab_results` occurs as a substring. -/
def c1_raw : String := "The category is lab_results, confidence high."

/-- A text long enough to reach the generation collaborator. -/
def c1_text : String :=
  "This document is long enough to be sent to the language model collaborator."

/-- An entry observed mid-write on the first tick. -/
def c9_unstable : FolderEntry :=
  { path := "/inbox/a.pdf", is_file := true, ext := ".pdf",
    obs := { size1 := some 100, size2 := some 160, can_read := true },
    outcome := ProcOutcome.success }

/-- The same file observed stable on a later tick. -/
def c9_stable : FolderEntry :=
  { c9_unstable with
    obs := { size1 := some 160, size2 := some 160, can_read := true } }

/-- Empty watcher state. -/
def c9_st : WatcherSt :=
  { processed_files := [], errors := [], files_in_queue := 0 }

/-- Outcomes after which `_process_file` adds the file to the cache. -/
def outcomeOk : ProcOutcome → Bool
  | ProcOutcome.failure _ => false
  | _ => true

/-! Helper lemmas. -/

theorem FaxCategory.fromValue?_value (c : FaxCategory) :
    FaxCategory.fromValue? c.value = some c := by
  cases c <;> rfl

theorem categorize_fax_raises (gen : String → String) (text : String) :
    categorize_fax gen text =
      Except.error (PyException.attributeError "unknown") := by
  unfold categorize_fax
  split <;> rfl

theorem DBState.faxes_updateFax (st : DBState) (i : Nat) (upd : FaxRow → FaxRow) :
    (st.updateFax i upd).faxes =
      st.faxes.map (fun f => if f.id = i then upd f else f) := rfl

theorem find?_map_update (l : List FaxRow) (i : Nat) (upd : FaxRow → FaxRow)
    (hid : ∀ f, (upd f).id = f.id) :
    (l.map (fun f => if f.id = i then upd f else f)).find? (fun f => f.id = i) =
      (l.find? (fun f => f.id = i)).map upd := by
  induction l with
  | nil => rfl
  | cons a l ih =>
    by_cases h : a.id = i
    · simp [List.find?, h, hid a]
    · simp [List.find?, h, ih]

theorem review_fax_approve_shape (st : DBState) (i : Nat)
    (req : FaxReviewRequest) (fax : FaxRow)
    (hfind : st.faxes.find? (fun f => f.id = i) = some fax)
    (ha : req.action = "approve") :
    (review_fax st i req).2 = st.updateFax i (approveUpd req) ∧
    ((fax.ai_category.bind FaxCategory.fromValue?).isSome →
      ∃ r, (review_fax st i req).1 = Except.ok (some r)) ∧
    (fax.ai_category = none →
      (review_fax st i req).1 = Except.error ReviewError.invalidFinalCategory) := by
  unfold review_fax
  rw [hfind]
  dsimp only
  rw [if_pos ha]
  have hfc : (approveUpd req fax).final_category = fax.ai_category := rfl
  rw [hfc]
  cases hac : fax.ai_category with
  | none => simp
  | some v =>
    cases hv : FaxCategory.fromValue? v with
    | none => simp [hv]
    | some c => simp [hv]

theorem review_fax_not_found (st : DBState) (i : Nat) (req : FaxReviewRequest)
    (hfind : st.faxes.find? (fun f => f.id = i) = none) :
    review_fax st i req = (Except.ok none, st) := by
  unfold review_fax
  rw [hfind]

theorem review_fax_override_shape (st : DBState) (i : Nat)
    (req : FaxReviewRequest) (fax : FaxRow)
    (hfind : st.faxes.find? (fun f => f.id = i) = some fax)
    (ha : req.action ≠ "approve") :
    (req.category = none →
      review_fax st i req = (Except.error ReviewError.missingCategory, st)) ∧
    (∀ cat, req.category = some cat → fax.ai_category = none →
      review_fax st i req =
        (Except.error ReviewError.feedbackNullAiCategory, st)) ∧
    (∀ cat aival, req.category = some cat → fax.ai_category = some aival →
      review_fax st i req =
        (Except.ok (some { id := fax.id, status := FaxStatus.overridden,
                           final_category := cat, was_overridden := true,
                           message := "Category overridden to " ++ cat.value ++ "." }),
         { (st.updateFax i (overrideUpd req cat)) with
           feedbacks := st.feedbacks ++ [overrideFeedback req cat i aival] })) := by
  unfold review_fax
  rw [hfind]
  dsimp only
  rw [if_neg ha]
  refine ⟨?_, ?_, ?_⟩
  · intro hc
    rw [hc]
  · intro cat hc hai
    rw [hc]
    dsimp only
    rw [hai]
  · intro cat aival hc hai
    rw [hc]
    dsimp only
    rw [hai]
    dsimp only
    rw [FaxCategory.fromValue?_value]

theorem process_shape_dup (md5 : String → String)
    (extract : String → String × Nat) (gen : String → String)
    (st : DBState) (c f p : String) (fax : FaxRow)
    (hf : st.faxes.find? (fun f0 => f0.file_hash = md5 c) = some fax) :
    process_new_fax md5 extract gen st c f p = (Except.ok none, st) := by
  unfold process_new_fax
  dsimp only
  rw [hf]

theorem process_shape_raise (md5 : String → String)
    (extract : String → String × Nat) (gen : String → String)
    (st : DBState) (c f p : String)
    (hf : st.faxes.find? (fun f0 => f0.file_hash = md5 c) = none) :
    process_new_fax md5 extract gen st c f p =
      (Except.error (PyException.attributeError "unknown"), st) := by
  unfold process_new_fax
  dsimp only
  rw [hf]
  dsimp only
  rw [categorize_fax_raises]

theorem updateFax_pairs (st : DBState) (i : Nat) (upd : FaxRow → FaxRow)
    (h : ∀ f, pairFn (upd f) = pairFn f) :
    (st.updateFax i upd).faxes.map pairFn = st.faxes.map pairFn := by
  rw [DBState.faxes_updateFax, List.map_map]
  apply List.map_congr_left
  intro f _
  by_cases hfi : f.id = i <;> simp [Function.comp, hfi, h f]

theorem review_fax_pairs (st : DBState) (i : Nat) (req : FaxReviewRequest) :
    ((review_fax st i req).2).faxes.map pairFn = st.faxes.map pairFn := by
  unfold review_fax
  cases hf : st.faxes.find? (fun f => f.id = i) with
  | none => rfl
  | some fax =>
    dsimp only
    by_cases ha : req.action = "approve"
    · rw [if_pos ha]
      split
      · exact updateFax_pairs st i (approveUpd req) (fun f => rfl)
      · split <;> exact updateFax_pairs st i (approveUpd req) (fun f => rfl)
    · rw [if_neg ha]
      split
      · rfl
      · split
        · rfl
        · split <;>
            exact updateFax_pairs st i (overrideUpd req _) (fun f => rfl)

theorem presentFax_congr (st st' : DBState)
    (h : st'.faxes.map pairFn = st.faxes.map pairFn) (j : Nat) :
    presentFax st' j = presentFax st j := by
  unfold presentFax
  rw [Bool.eq_iff_iff, List.any_eq_true, List.any_eq_true]
  constructor
  · rintro ⟨f, hf, hfj⟩
    have hmem : pairFn f ∈ st'.faxes.map pairFn := List.mem_map_of_mem _ hf
    rw [h] at hmem
    obtain ⟨g, hg, hpair⟩ := List.mem_map.mp hmem
    refine ⟨g, hg, ?_⟩
    have hid : g.id = f.id := congrArg Prod.fst hpair
    rw [hid]
    exact hfj
  · rintro ⟨f, hf, hfj⟩
    have hmem : pairFn f ∈ st.faxes.map pairFn := List.mem_map_of_mem _ hf
    rw [← h] at hmem
    obtain ⟨g, hg, hpair⟩ := List.mem_map.mp hmem
    refine ⟨g, hg, ?_⟩
    have hid : g.id = f.id := congrArg Prod.fst hpair
    rw [hid]
    exact hfj

theorem validCats_congr (st st' : DBState)
    (h : st'.faxes.map pairFn = st.faxes.map pairFn) (hv : validCats st) :
    validCats st' := by
  intro f' hf'
  have hmem : pairFn f' ∈ st'.faxes.map pairFn := List.mem_map_of_mem _ hf'
  rw [h] at hmem
  obtain ⟨f, hf, hpair⟩ := List.mem_map.mp hmem
  have h2 : f.ai_category = f'.ai_category := congrArg Prod.snd hpair
  have h3 := hv f hf
  rw [h2] at h3
  exact h3

theorem review_fax_approve_ok (st : DBState) (i : Nat)
    (req : FaxReviewRequest) (ha : req.action = "approve")
    (hp : presentFax st i = true) (hv : validCats st) :
    ∃ r, (review_fax st i req).1 = Except.ok (some r) := by
  obtain ⟨f, hfmem, hfi⟩ := List.any_eq_true.mp hp
  have hsome : (st.faxes.find? (fun f => f.id = i)).isSome := by
    rw [List.find?_isSome]
    exact ⟨f, hfmem, by simpa using hfi⟩
  obtain ⟨fax, hfind⟩ := Option.isSome_iff_exists.mp hsome
  exact (review_fax_approve_shape st i req fax hfind ha).2.1
    (hv fax (List.mem_of_find?_eq_some hfind))

theorem review_fax_absent (st : DBState) (i : Nat) (req : FaxReviewRequest)
    (hp : presentFax st i = false) :
    review_fax st i req = (Except.ok none, st) := by
  apply review_fax_not_found
  apply List.find?_eq_none.mpr
  intro f hf
  unfold presentFax at hp
  rw [List.any_eq_false] at hp
  have := hp f hf
  simpa using this

theorem batchStep_sum (a : String) (c : Option FaxCategory)
    (r v : Option String) (acc : (Nat × Nat) × DBState) (i : Nat) :
    (batchStep a c r v acc i).1.1 + (batchStep a c r v acc i).1.2 =
      acc.1.1 + acc.1.2 + 1 := by
  unfold batchStep
  dsimp only
  rcases hr : review_fax acc.2 i
    { action := a, category := c, reason := r, reviewer := v } with ⟨e, st'⟩
  cases e with
  | error err =>
    simp
    omega
  | ok res => cases res <;> simp <;> omega

theorem batch_foldl_sum (a : String) (c : Option FaxCategory)
    (r v : Option String) (ids : List Nat) :
    ∀ acc : (Nat × Nat) × DBState,
      (ids.foldl (batchStep a c r v) acc).1.1 +
        (ids.foldl (batchStep a c r v) acc).1.2 =
      acc.1.1 + acc.1.2 + ids.length := by
  induction ids with
  | nil => intro acc; simp
  | cons i ids ih =>
    intro acc
    rw [List.foldl_cons, ih, batchStep_sum]
    simp [List.length_cons]
    omega

theorem batch_foldl_counts (c : Option FaxCategory) (r v : Option String)
    (ids : List Nat) :
    ∀ (st : DBState) (p q : Nat), validCats st →
      (ids.foldl (batchStep "approve" c r v) ((p, q), st)).1 =
        (p + ids.countP (fun i => presentFax st i),
         q + ids.countP (fun i => !presentFax st i)) := by
  induction ids with
  | nil => intro st p q hv; simp
  | cons i ids ih =>
    intro st p q hv
    rw [List.foldl_cons]
    by_cases hp : presentFax st i = true
    · obtain ⟨resp, hr⟩ := review_fax_approve_ok st i
        ⟨"approve", c, r, v⟩ rfl hp hv
      have hpair : review_fax st i (⟨"approve", c, r, v⟩ : FaxReviewRequest) =
          (Except.ok (some resp),
           (review_fax st i (⟨"approve", c, r, v⟩ : FaxReviewRequest)).2) := by
        rw [← hr]
      have hstep : batchStep "approve" c r v ((p, q), st) i =
          ((p + 1, q),
           (review_fax st i (⟨"approve", c, r, v⟩ : FaxReviewRequest)).2) := by
        unfold batchStep
        dsimp only
        rw [hpair]
      rw [hstep]
      have hpairs := review_fax_pairs st i ⟨"approve", c, r, v⟩
      rw [ih _ (p + 1) q (validCats_congr st _ hpairs hv)]
      have hpres := fun j => presentFax_congr st _ hpairs j
      have hc1 : List.countP (fun i0 =>
          presentFax (review_fax st i
            (⟨"approve", c, r, v⟩ : FaxReviewRequest)).2 i0) ids =
          List.countP (fun i0 => presentFax st i0) ids :=
        List.countP_congr (fun a _ => by rw [hpres a])
      have hc2 : List.countP (fun i0 =>
          !presentFax (review_fax st i
            (⟨"approve", c, r, v⟩ : FaxReviewRequest)).2 i0) ids =
          List.countP (fun i0 => !presentFax st i0) ids :=
        List.countP_congr (fun a _ => by rw [hpres a])
      rw [hc1, hc2, List.countP_cons, List.countP_cons]
      simp [hp]
      omega
    · have hp' : presentFax st i = false := by simpa using hp
      have hr := review_fax_absent st i ⟨"approve", c, r, v⟩ hp'
      have hstep : batchStep "approve" c r v ((p, q), st) i =
          ((p, q + 1), st) := by
        unfold batchStep
        dsimp only
        rw [hr]
      rw [hstep, ih st p (q + 1) hv, List.countP_cons, List.countP_cons]
      simp [hp']
      omega

theorem scanStep_processed (acc : WatcherSt) (e : FolderEntry) :
    (scanStep acc e).processed_files =
      acc.processed_files ++ (if outcomeOk e.outcome then [e.path] else []) := by
  unfold scanStep outcomeOk
  cases e.outcome <;> simp

theorem scan_foldl_processed (l : List FolderEntry) :
    ∀ acc : WatcherSt,
      (l.foldl scanStep acc).processed_files =
        acc.processed_files ++
          (l.filter (fun e => outcomeOk e.outcome)).map (fun e => e.path) := by
  induction l with
  | nil => intro acc; simp
  | cons e l ih =>
    intro acc
    rw [List.foldl_cons, ih, scanStep_processed]
    by_cases h : outcomeOk e.outcome = true
    · simp [h, List.filter_cons]
    · have h' : outcomeOk e.outcome = false := by simpa using h
      simp [h', List.filter_cons]

theorem scan_folder_processed (st : WatcherSt) (entries : List FolderEntry) :
    (scan_folder st entries).processed_files =
      st.processed_files ++
        ((entries.filter (scan_candidate st)).filter
          (fun e => outcomeOk e.outcome)).map (fun e => e.path) := by
  unfold scan_folder
  dsimp only
  rw [scan_foldl_processed]

theorem is_file_ready_iff (obs : FileObs) :
    is_file_ready obs = true ↔
      ∃ s1 s2, obs.size1 = some s1 ∧ obs.size2 = some s2 ∧ s1 = s2 ∧
        obs.can_read = true := by
  rcases obs with ⟨os1, os2, cr⟩
  unfold is_file_ready
  cases os1 with
  | none => simp
  | some s1 =>
    cases os2 with
    | none => simp
    | some s2 =>
      by_cases h : s1 = s2
      · subst h
        simp
      · simp [h]

theorem unstable_not_candidate (st : WatcherSt) (e : FolderEntry)
    (s1 s2 : Nat) (h1 : e.obs.size1 = some s1) (h2 : e.obs.size2 = some s2)
    (hne : s1 ≠ s2) : scan_candidate st e = false := by
  have hready : is_file_ready e.obs = false := by
    cases hr : is_file_ready e.obs with
    | false => rfl
    | true =>
      obtain ⟨t1, t2, ht1, ht2, hteq, -⟩ := (is_file_ready_iff e.obs).mp hr
      rw [h1] at ht1
      rw [h2] at ht2
      cases ht1
      cases ht2
      exact absurd hteq hne
  unfold scan_candidate
  rw [hready]
  simp

/-! Claim theorems. -/

/-- Claim C1 (code bug): `categorize_fax` never runs the documented parsing
cascade — on every call it raises `AttributeError` evaluating
`FaxCategory.unknown` (on the imported four-member enum), at line 77 for
short text and at line 106 for long text, before any JSON extraction or
keyword matching; in particular a response containing `lab_results` is
never mapped to anything. -/
theorem categorize_fax_attribute_error :
    (∀ (gen : String → String) (text : String),
      categorize_fax gen text =
        Except.error (PyException.attributeError "unknown")) ∧
    containsSub (strToLower c1_raw) "lab_results" = true ∧
    categorize_fax (fun _ => c1_raw) c1_text =
      Except.error (PyException.attributeError "unknown") :=
  ⟨categorize_fax_raises, by decide,
   categorize_fax_raises (fun _ => c1_raw) c1_text⟩

/-- Claim C2 counterexample: `review_fax` applies `approve` to a record
whose status is `processed` without any guard, committing status
`approved` — so a review operation does move a processed record to another
status. -/
theorem processed_not_terminal_cex :
    c2_row.status = FaxStatus.processed ∧
    ((review_fax c2_st 1 c2_approve).2).faxes.map (fun f => f.status) =
      [FaxStatus.approved] ∧
    FaxStatus.approved ≠ FaxStatus.processed :=
  ⟨by decide, by decide, by decide⟩

/-- Claim C2 (amended): the `processed` status is not terminal under the
review operations: on a record whose status is `processed`, `approve`
commits status `approved` (no status guard exists), while `mark_processed`
re-marks it `processed` and deletion removes the record. -/
theorem processed_status_transitions (st : DBState) (i : Nat)
    (req : FaxReviewRequest) (fax : FaxRow)
    (hfind : st.faxes.find? (fun f => f.id = i) = some fax)
    (_hst : fax.status = FaxStatus.processed)
    (ha : req.action = "approve") :
    (∃ f', ((review_fax st i req).2).faxes.find? (fun f => f.id = i) = some f' ∧
       f'.status = FaxStatus.approved) ∧
    (∃ f', ((mark_fax_processed st i).2).faxes.find? (fun f => f.id = i) = some f' ∧
       f'.status = FaxStatus.processed) ∧
    (delete_fax st i).1 = true ∧
    ((delete_fax st i).2).faxes.find? (fun f => f.id = i) = none := by
  refine ⟨?_, ?_, ?_, ?_⟩
  · obtain ⟨hstate, -, -⟩ := review_fax_approve_shape st i req fax hfind ha
    refine ⟨approveUpd req fax, ?_, rfl⟩
    rw [hstate, DBState.faxes_updateFax,
        find?_map_update st.faxes i (approveUpd req) (fun f => rfl), hfind]
    rfl
  · unfold mark_fax_processed
    rw [hfind]
    dsimp only
    refine ⟨{ fax with status := FaxStatus.processed }, ?_, rfl⟩
    rw [DBState.faxes_updateFax,
        find?_map_update st.faxes i
          (fun f => { f with status := FaxStatus.processed }) (fun f => rfl),
        hfind]
    rfl
  · unfold delete_fax
    rw [hfind]
  · unfold delete_fax
    rw [hfind]
    dsimp only
    apply List.find?_eq_none.mpr
    intro x hx
    have hx' := List.of_mem_filter hx
    simp only [decide_eq_true_eq] at hx' ⊢
    exact hx'

theorem processed_status_transitions_witness :
    c2_row.status = FaxStatus.processed ∧
    (∃ f', ((review_fax c2_st 1 c2_approve).2).faxes.find? (fun f => f.id = 1) =
        some f' ∧ f'.status = FaxStatus.approved) ∧
    (delete_fax c2_st 1).1 = true := by
  have h := processed_status_transitions c2_st 1 c2_approve c2_row
    (by decide) (by decide) rfl
  exact ⟨by decide, h.1, h.2.2.1⟩

/-- Claim C3 counterexample: overriding an existing record whose
`ai_category` is NULL does not create a feedback record and does not
succeed — the feedback insert violates the NOT NULL column
`fax_feedback.ai_category` (`models/fax.py` 80), the commit raises
`IntegrityError`, and the rollback leaves the store unchanged. -/
theorem override_null_ai_category_cex :
    c3n_row.ai_category = none ∧
    c3_req.category = some FaxCategory.junk_fax ∧
    review_fax c3n_st 1 c3_req =
      (Except.error ReviewError.feedbackNullAiCategory, c3n_st) ∧
    ((review_fax c3n_st 1 c3_req).2).feedbacks = [] :=
  ⟨by decide, by decide, by rfl, by rfl⟩

/-- Claim C3 (amended): for an existing record, override fails with the
missing-category validation error exactly when the category argument is
absent; when a category is supplied and the record's `ai_category` is
present, the call returns a response, appends exactly one feedback row
pairing that `ai_category` with the supplied category, and sets the row's
`final_category`, `was_overridden` and `status` as claimed; when the
record's `ai_category` is NULL the commit violates the feedback table's
NOT NULL column and raises, rolling everything back with no feedback
created. -/
theorem override_requires_category (st : DBState) (i : Nat)
    (req : FaxReviewRequest) (fax : FaxRow)
    (hfind : st.faxes.find? (fun f => f.id = i) = some fax)
    (ha : req.action = "override") :
    (req.category = none ↔
      (review_fax st i req).1 = Except.error ReviewError.missingCategory) ∧
    (∀ cat aival, req.category = some cat → fax.ai_category = some aival →
      (∃ resp, (review_fax st i req).1 = Except.ok (some resp)) ∧
      ((review_fax st i req).2).feedbacks =
        st.feedbacks ++ [overrideFeedback req cat i aival] ∧
      ∃ f', ((review_fax st i req).2).faxes.find? (fun f => f.id = i) = some f' ∧
        f'.final_category = some cat.value ∧ f'.was_overridden = true ∧
        f'.status = FaxStatus.overridden) ∧
    (∀ cat, req.category = some cat → fax.ai_category = none →
      review_fax st i req =
        (Except.error ReviewError.feedbackNullAiCategory, st)) := by
  have ha' : req.action ≠ "approve" := by rw [ha]; decide
  obtain ⟨hnone, hnull, hsome⟩ := review_fax_override_shape st i req fax hfind ha'
  refine ⟨?_, ?_, hnull⟩
  · constructor
    · intro hc
      rw [hnone hc]
    · intro h
      cases hc : req.category with
      | none => rfl
      | some cat =>
        cases hai : fax.ai_category with
        | none =>
          rw [hnull cat hc hai] at h
          exact absurd h (by simp)
        | some aival =>
          rw [hsome cat aival hc hai] at h
          exact absurd h (by simp)
  · intro cat aival hc hai
    rw [hsome cat aival hc hai]
    refine ⟨⟨_, rfl⟩, rfl, overrideUpd req cat fax, ?_, rfl, rfl, rfl⟩
    show (st.updateFax i (overrideUpd req cat)).faxes.find? (fun f => f.id = i) = _
    rw [DBState.faxes_updateFax,
        find?_map_update st.faxes i (overrideUpd req cat) (fun f => rfl), hfind]
    rfl

theorem override_requires_category_witness :
    c3_req.category = some FaxCategory.junk_fax ∧
    c3_row.ai_category = some "census" ∧
    (∃ resp, (review_fax c3_st 1 c3_req).1 = Except.ok (some resp)) ∧
    ((review_fax c3_st 1 c3_req).2).feedbacks =
      [overrideFeedback c3_req FaxCategory.junk_fax 1 "census"] := by
  have h := (override_requires_category c3_st 1 c3_req c3_row
    (by decide) rfl).2.1 FaxCategory.junk_fax "census" rfl rfl
  exact ⟨rfl, rfl, h.1, by rw [h.2.1]; rfl⟩

/-- Claim C4 (code bug): intake never persists any record — the duplicate
check works, but on every non-duplicate path `categorize_fax` raises
`AttributeError` (propagated after rollback), so the store is never
changed; in particular submitting identical content twice creates zero
records, not one, and the second submission raises rather than reporting
duplicate (unless the hash was already persisted by other means, in which
case the duplicate outcome is returned). -/
theorem process_new_fax_never_persists (md5 : String → String)
    (extract : String → String × Nat) (gen : String → String) :
    (∀ st c f p, (process_new_fax md5 extract gen st c f p).2 = st) ∧
    (∀ st c f p fax,
      st.faxes.find? (fun f0 => f0.file_hash = md5 c) = some fax →
      process_new_fax md5 extract gen st c f p = (Except.ok none, st)) ∧
    (∀ st c f p,
      st.faxes.find? (fun f0 => f0.file_hash = md5 c) = none →
      process_new_fax md5 extract gen st c f p =
        (Except.error (PyException.attributeError "unknown"), st)) := by
  refine ⟨?_, ?_, ?_⟩
  · intro st c f p
    cases hf : st.faxes.find? (fun f0 => f0.file_hash = md5 c) with
    | some fax => rw [process_shape_dup md5 extract gen st c f p fax hf]
    | none => rw [process_shape_raise md5 extract gen st c f p hf]
  · intro st c f p fax hf
    exact process_shape_dup md5 extract gen st c f p fax hf
  · intro st c f p hf
    exact process_shape_raise md5 extract gen st c f p hf

theorem process_new_fax_never_persists_witness :
    (({ faxes := [], feedbacks := [] } : DBState)).faxes.find?
        (fun f0 => f0.file_hash = (fun (s : String) => s) "abc") = none ∧
    process_new_fax (fun s => s) (fun s => (s, 1)) (fun _ => "")
        { faxes := [], feedbacks := [] } "abc" "a.pdf" "/in/a.pdf" =
      (Except.error (PyException.attributeError "unknown"),
       { faxes := [], feedbacks := [] }) :=
  ⟨by decide,
   (process_new_fax_never_persists (fun s => s) (fun s => (s, 1))
      (fun _ => "")).2.2 { faxes := [], feedbacks := [] } "abc" "a.pdf"
      "/in/a.pdf" (by decide)⟩

/-- Claim C5 (code bug): `detect_urgency` never computes any urgency score —
its first statement reads `FaxCategory.urgent`, absent from the imported
four-member enum, so every call raises `AttributeError` before the keyword
scan or any priority floor; in particular a text containing "URGENT" never
yields `is_urgent = true`. -/
theorem detect_urgency_attribute_error :
    (∀ (text : String) (category : FaxCategory),
      detect_urgency text category =
        Except.error (PyException.attributeError "urgent")) ∧
    detect_urgency "please respond URGENT" FaxCategory.census =
      Except.error (PyException.attributeError "urgent") :=
  ⟨fun _ _ => rfl, rfl⟩

/-- Claim C6: batch review applies the action independently per id — the
processed and failed counts always sum to the number of ids (the loop
catches every per-id failure, so nothing escapes the batch boundary), and
for `approve` over a store whose AI categories are real member values
(the stores on which the response conversion succeeds), each existing id
counts as processed and each non-existent id as failed; a batch with
exactly one invalid id therefore yields processed = N−1, failed = 1. -/
theorem batch_review_counts (st : DBState) (ids : List Nat) (action : String)
    (cat : Option FaxCategory) (reason reviewer : Option String) :
    ((batch_review_faxes st ids action cat reason reviewer).1.1 +
       (batch_review_faxes st ids action cat reason reviewer).1.2 =
      ids.length) ∧
    (action = "approve" → validCats st →
      (batch_review_faxes st ids action cat reason reviewer).1 =
        (ids.countP (fun i => presentFax st i),
         ids.countP (fun i => !presentFax st i))) := by
  constructor
  · unfold batch_review_faxes
    rw [batch_foldl_sum]
    simp
  · intro ha hv
    subst ha
    unfold batch_review_faxes
    rw [batch_foldl_counts cat reason reviewer ids st 0 0 hv]
    simp

theorem batch_review_counts_witness :
    validCats c6_st ∧
    (batch_review_faxes c6_st [1, 2, 99] "approve" none none none).1 = (2, 1) := by
  constructor
  · unfold validCats
    decide
  · have h := (batch_review_counts c6_st [1, 2, 99] "approve" none none
      none).2 rfl (by unfold validCats; decide)
    rw [h]
    decide

/-- Claim C7 (code bug): `get_fax_stats` never returns a statistics
aggregate — the counting and the guarded accuracy arithmetic (lines
473-501, embedded as `stats_core`) complete, with `total_reviewed` =
approved + overridden, the zero-guard, and 75 for three approved plus one
overridden, but the `FaxStats(...)` construction omits the required
`auto_approved` field (`schemas/fax.py` 142) and raises a pydantic
`ValidationError` on every call. -/
theorem fax_stats_validation_error :
    (∀ st : DBState, get_fax_stats st =
      Except.error (PyException.validationError "auto_approved")) ∧
    (∀ st : DBState,
      (stats_core st).total_reviewed =
        st.faxes.countP (fun f => f.status == FaxStatus.approved) +
          st.faxes.countP (fun f => f.status == FaxStatus.overridden) ∧
      (stats_core st).accuracy_rate =
        (if 0 < (stats_core st).total_reviewed then
          ((st.faxes.countP (fun f => f.status == FaxStatus.approved) : ℚ) /
            ((stats_core st).total_reviewed : ℚ)) * 100
        else 0)) ∧
    (stats_core c7_st).accuracy_rate = 75 := by
  refine ⟨fun st => rfl, fun st => ⟨rfl, rfl⟩, ?_⟩
  show (if (0 : Nat) < 3 + 1 then ((3 : ℚ) / ((3 + 1 : Nat) : ℚ)) * 100 else 0) = 75
  norm_num

/-- Claim C8 (code bug): on short text `categorize_fax` reaches its
short-circuit branch, but that branch's return expression evaluates
`FaxCategory.unknown` (line 77), absent from the imported enum, so the call
raises `AttributeError` instead of returning (unknown, 0.3, an
insufficient-text reason); no generation call is made — the outcome is
independent of the generation collaborator. -/
theorem short_text_attribute_error (gen gen' : String → String)
    (text : String) (_h : (strTrim text).length < 50) :
    categorize_fax gen text =
      Except.error (PyException.attributeError "unknown") ∧
    categorize_fax gen text = categorize_fax gen' text := by
  exact ⟨categorize_fax_raises gen text,
    (categorize_fax_raises gen text).trans
      (categorize_fax_raises gen' text).symm⟩

theorem short_text_attribute_error_witness :
    (strTrim "hi").length < 50 ∧
    categorize_fax (fun _ => "some response") "hi" =
      Except.error (PyException.attributeError "unknown") :=
  ⟨by decide,
   (short_text_attribute_error (fun _ => "some response") (fun _ => "")
      "hi" (by decide)).1⟩

/-- Claim C9: the file-stability gate.  (a) `_is_file_ready` accepts exactly
the files whose two size samples are both obtained and equal and that can
be opened for reading.  (b) An entry whose two samples differ is not handed
to the intake processor in that tick and its path is not added to the
processed-file cache.  (c) On a later tick in which its samples are stable
and it is readable, it is picked up and handed to the intake processor. -/
theorem stability_gate :
    (∀ obs : FileObs, is_file_ready obs = true ↔
      ∃ s1 s2, obs.size1 = some s1 ∧ obs.size2 = some s2 ∧ s1 = s2 ∧
        obs.can_read = true) ∧
    (∀ (st : WatcherSt) (entries : List FolderEntry) (e : FolderEntry)
        (s1 s2 : Nat), e ∈ entries →
      e.obs.size1 = some s1 → e.obs.size2 = some s2 → s1 ≠ s2 →
      (∀ e' ∈ entries, e'.path = e.path → e' = e) →
      e.path ∉ processedThisTick st entries ∧
      (e.path ∈ (scan_folder st entries).processed_files ↔
        e.path ∈ st.processed_files)) ∧
    (∀ (st : WatcherSt) (entries1 entries2 : List FolderEntry)
        (e2 : FolderEntry),
      (∀ e' ∈ entries1, e'.path = e2.path →
        ∃ s1 s2, e'.obs.size1 = some s1 ∧ e'.obs.size2 = some s2 ∧ s1 ≠ s2) →
      e2 ∈ entries2 → e2.is_file = true →
      supported_exts.contains (strToLower e2.ext) = true →
      (∃ s, e2.obs.size1 = some s ∧ e2.obs.size2 = some s) →
      e2.obs.can_read = true →
      e2.path ∉ st.processed_files →
      e2.path ∈ processedThisTick (scan_folder st entries1) entries2) := by
  refine ⟨is_file_ready_iff, ?_, ?_⟩
  · intro st entries e s1 s2 hmem h1 h2 hne huniq
    have hnotick : e.path ∉ processedThisTick st entries := by
      intro hin
      obtain ⟨e', he', hpath⟩ := List.mem_map.mp hin
      have he'mem := (List.mem_filter.mp he').1
      have hcand := (List.mem_filter.mp he').2
      have : e' = e := huniq e' he'mem hpath
      subst this
      rw [unstable_not_candidate st e' s1 s2 h1 h2 hne] at hcand
      exact absurd hcand (by simp)
    refine ⟨hnotick, ?_⟩
    rw [scan_folder_processed, List.mem_append]
    constructor
    · intro hin
      cases hin with
      | inl h => exact h
      | inr h =>
        exfalso
        apply hnotick
        obtain ⟨e', he', hpath⟩ := List.mem_map.mp h
        exact List.mem_map.mpr
          ⟨e', (List.mem_filter.mp he').1, hpath⟩
    · intro hin
      exact Or.inl hin
  · intro st entries1 entries2 e2 hunst hmem hfile hext hsz hread hcache
    obtain ⟨s, hs1, hs2⟩ := hsz
    have hready : is_file_ready e2.obs = true :=
      (is_file_ready_iff e2.obs).mpr ⟨s, s, hs1, hs2, rfl, hread⟩
    have hnot2 : e2.path ∉ (scan_folder st entries1).processed_files := by
      rw [scan_folder_processed, List.mem_append]
      rintro (h | h)
      · exact hcache h
      · obtain ⟨e', he', hpath⟩ := List.mem_map.mp h
        have he'c := (List.mem_filter.mp (List.mem_filter.mp he').1).2
        have he'mem := (List.mem_filter.mp (List.mem_filter.mp he').1).1
        obtain ⟨t1, t2, ht1, ht2, htne⟩ := hunst e' he'mem hpath
        rw [unstable_not_candidate st e' t1 t2 ht1 ht2 htne] at he'c
        exact absurd he'c (by simp)
    have hcand : scan_candidate (scan_folder st entries1) e2 = true := by
      unfold scan_candidate
      rw [hfile, hext, hready]
      have : (scan_folder st entries1).processed_files.contains e2.path =
          false := by
        simpa using hnot2
      rw [this]
      rfl
    exact List.mem_map.mpr ⟨e2, List.mem_filter.mpr ⟨hmem, hcand⟩, rfl⟩

theorem stability_gate_witness :
    "/inbox/a.pdf" ∉ processedThisTick c9_st [c9_unstable] ∧
    "/inbox/a.pdf" ∈
      processedThisTick (scan_folder c9_st [c9_unstable]) [c9_stable] := by
  constructor
  · exact (stability_gate.2.1 c9_st [c9_unstable] c9_unstable 100 160
      (List.mem_singleton_self _) rfl rfl (by decide)
      (fun e' he' _ => by
        rw [List.mem_singleton] at he'
        exact he')).1
  · exact stability_gate.2.2 c9_st [c9_unstable] [c9_stable] c9_stable
      (fun e' he' _ => by
        rw [List.mem_singleton] at he'
        exact ⟨100, 160, by rw [he']; rfl, by rw [he']; rfl, by decide⟩)
      (List.mem_singleton_self _) rfl (by decide) ⟨160, rfl, rfl⟩ rfl
      (by decide)

/-- Claim C10: reviewing a persisted record whose `ai_category` is NULL with
action `approve` does not return a review response: approve copies the
absent `ai_category` into `final_category`, and the response constructor
`FaxCategory(fax.final_category)` then raises, so the call signals an error
instead of reporting an approval. -/
theorem approve_missing_ai_category_raises (st : DBState) (i : Nat)
    (req : FaxReviewRequest) (fax : FaxRow)
    (hfind : st.faxes.find? (fun f => f.id = i) = some fax)
    (hai : fax.ai_category = none) (ha : req.action = "approve") :
    (review_fax st i req).1 = Except.error ReviewError.invalidFinalCategory ∧
    ∃ f', ((review_fax st i req).2).faxes.find? (fun f => f.id = i) = some f' ∧
      f'.final_category = none := by
  obtain ⟨hstate, -, hraise⟩ := review_fax_approve_shape st i req fax hfind ha
  refine ⟨hraise hai, approveUpd req fax, ?_, ?_⟩
  · rw [hstate, DBState.faxes_updateFax,
        find?_map_update st.faxes i (approveUpd req) (fun f => rfl), hfind]
    rfl
  · show fax.ai_category = none
    exact hai

theorem approve_missing_ai_category_raises_witness :
    ({ faxes := [c10_row], feedbacks := [] } : DBState).faxes.find?
        (fun f => f.id = 1) = some c10_row ∧
    c10_row.ai_category = none ∧
    (review_fax { faxes := [c10_row], feedbacks := [] } 1
        { action := "approve", category := none, reason := none,
          reviewer := none }).1 =
      Except.error ReviewError.invalidFinalCategory :=
  ⟨by decide, by decide,
   (approve_missing_ai_category_raises
      { faxes := [c10_row], feedbacks := [] } 1
      { action := "approve", category := none, reason := none,
        reviewer := none }
      c10_row (by decide) (by decide) (by decide)).1⟩
